import Mathlib

/-!
Shallow embedding of the Textile-Damage-Detection-App (src/app.py) core logic.

Conventions of the embedding:
* A pixel is an RGB triple of naturals; an image (numpy array) is a list of
  rows of pixels; `shape[:2]` is `(rows, columns)`.
* Python `float` values are modelled as exact rationals (`ℚ`); every numeric
  literal appearing in the claims (0.5, 0.25, ...) is an exact dyadic, so the
  rational model agrees with IEEE evaluation on them.
* An annotation file is `Option (List String)`: `none` models a missing path
  (`os.path.exists` false), `some lines` the file's lines.
* A raised-and-caught Python exception inside the parsing loop is modelled by
  the `abort` outcome: processing of the file stops and the buffer drawn so
  far is returned (the `try`/`except` at app.py lines 88-118 wraps the whole
  loop, not one line).
* `cv2.rectangle` is an external library primitive that mutates its buffer
  argument in place; it is modelled as a deterministic recoloring of a border
  band of the requested thickness.  No claim depends on the exact band shape,
  only on determinism and on which buffer is written.
-/

attribute [local semireducible] Rat.add Rat.mul Rat.inv Rat.sub

/-- RGB color triple, as in the `DEFECT_COLORS` literals of app.py. -/
abbrev Color := ℕ × ℕ × ℕ

/-- One pixel of an image buffer. -/
abbrev Pixel := Color

/-- An image buffer: a list of rows of pixels (numpy array of shape (h, w, 3)). -/
abbrev Image := List (List Pixel)

/-- Number of rows, the `h` of `img.shape[:2]` (app.py line 83). -/
def imgH (img : Image) : ℕ := img.length

/-- Number of columns of the first row, the `w` of `img.shape[:2]`. -/
def imgW (img : Image) : ℕ := (img.headD []).length

/-- Accumulating splitter over the characters of a line: `cur` holds the
characters of the token in progress, in reverse. -/
def splitWsAux (cur : List Char) : List Char → List (List Char)
  | [] => if cur.isEmpty then [] else [cur.reverse]
  | c :: r =>
    if c.isWhitespace then
      if cur.isEmpty then splitWsAux [] r else cur.reverse :: splitWsAux [] r
    else splitWsAux (c :: cur) r

/-- Python `line.strip().split()`: split on whitespace runs, dropping empty
tokens (which also discharges the leading/trailing strip). -/
def splitWs (line : String) : List String :=
  (splitWsAux [] line.data).map (fun cs => ⟨cs⟩)

/-- Numeric value of a decimal digit character. -/
def digitVal (c : Char) : ℕ := c.toNat - 48

/-- Value of a digit string read in base 10. -/
def digitsToNat (ds : List Char) : ℕ :=
  ds.foldl (fun a c => a * 10 + digitVal c) 0

/-- Consume an optional leading sign, returning the sign as `1` or `-1`. -/
def parseSign : List Char → ℤ × List Char
  | '-' :: r => (-1, r)
  | '+' :: r => (1, r)
  | r => (1, r)

/-- Model of Python `float(token)` on a whitespace-free token: optional sign,
decimal digits with optional fraction part, optional exponent.  Returns the
exact rational value, or `none` when Python would raise `ValueError`.
(The special spellings `inf`/`nan` and digit underscores are not modelled;
no claim depends on them.) -/
def pyFloat (s : String) : Option ℚ :=
  let (sg, cs) := parseSign s.data
  let (ip, cs) := cs.span Char.isDigit
  let (fp, cs) :=
    match cs with
    | '.' :: r => r.span Char.isDigit
    | _ => ([], cs)
  if ip.isEmpty && fp.isEmpty then none
  else
    let mant : ℚ := (sg : ℚ) * ((digitsToNat ip : ℚ) + (digitsToNat fp : ℚ) / 10 ^ fp.length)
    match cs with
    | [] => some mant
    | 'e' :: r =>
      let (es, r) := parseSign r
      let (ed, r) := r.span Char.isDigit
      if ed.isEmpty || !r.isEmpty then none
      else some (mant * (10 : ℚ) ^ (es * (digitsToNat ed : ℤ)))
    | 'E' :: r =>
      let (es, r) := parseSign r
      let (ed, r) := r.span Char.isDigit
      if ed.isEmpty || !r.isEmpty then none
      else some (mant * (10 : ℚ) ^ (es * (digitsToNat ed : ℤ)))
    | _ => none

/-- Model of Python `int(token)` on a whitespace-free token: optional sign and
a nonempty run of decimal digits, else `ValueError` (`none`). -/
def pyInt (s : String) : Option ℤ :=
  let (sg, cs) := parseSign s.data
  let (ds, rest) := cs.span Char.isDigit
  if ds.isEmpty || !rest.isEmpty then none else some (sg * (digitsToNat ds : ℤ))

/-- Python `int()` applied to a float value: truncation toward zero. -/
def truncQ (q : ℚ) : ℤ := if 0 ≤ q then ⌊q⌋ else ⌈q⌉

/-- The `DEFECT_COLORS` dictionary (app.py lines 70-78), as a partial map. -/
def DEFECT_COLORS (k : ℤ) : Option Color :=
  if k = 0 then some (255, 0, 0)
  else if k = 1 then some (0, 255, 0)
  else if k = 2 then some (0, 0, 255)
  else if k = 3 then some (255, 255, 0)
  else if k = 4 then some (255, 0, 255)
  else if k = 5 then some (0, 255, 255)
  else if k = 6 then some (255, 128, 0)
  else none

/-- Color chosen for a `class_id` token (app.py lines 108-113): `int(class_id)`
then `DEFECT_COLORS.get(..., (0,255,0))`; a `ValueError`/`TypeError` from the
inner `try` also falls back to green. -/
def classColor (tok : String) : Color :=
  match pyInt tok with
  | some cid => (DEFECT_COLORS cid).getD (0, 255, 0)
  | none => (0, 255, 0)

/-- Integer pixel rectangle with its stroke color, as passed to
`cv2.rectangle(img, (x1,y1), (x2,y2), color, 3)`. -/
structure Rect where
  x1 : ℤ
  y1 : ℤ
  x2 : ℤ
  y2 : ℤ
  col : Color
deriving DecidableEq, Repr

/-- Outcome of processing one annotation line inside the loop of
`draw_annotations` (app.py lines 90-116). -/
inductive LineOutcome where
  /-- Fewer than 5 tokens: the line is skipped locally (the `if` guard). -/
  | skip : LineOutcome
  /-- A rectangle is drawn for the line. -/
  | box : Rect → LineOutcome
  /-- `float()` raised on a coordinate token: the exception escapes to the
  `except` wrapping the whole loop, ending processing of the file. -/
  | abort : LineOutcome
deriving DecidableEq, Repr

/-- Body of the parsing loop for one already-tokenized line (app.py lines
91-116).  The `len(parts) >= 5` guard together with the `parts[:5]`
unpacking is exactly a match on a list of shape `cid :: a :: b :: c :: d ::
ignored`; `map(float, ...)` on the four coordinate tokens either yields the
four rationals or raises (the `abort` outcome, caught only by the `except`
around the whole loop). -/
def lineStepParts (w h : ℕ) : List String → LineOutcome
  | cid :: a :: b :: c :: d :: _ =>
    match pyFloat a, pyFloat b, pyFloat c, pyFloat d with
    | some xc, some yc, some bw, some bh =>
      let xcp := xc * w
      let ycp := yc * h
      let bwp := bw * w
      let bhp := bh * h
      .box ⟨truncQ (xcp - bwp / 2), truncQ (ycp - bhp / 2),
            truncQ (xcp + bwp / 2), truncQ (ycp + bhp / 2),
            classColor cid⟩
    | _, _, _, _ => .abort
  | _ => .skip

/-- Processing of one raw annotation line: tokenize, then step. -/
def lineStep (w h : ℕ) (line : String) : LineOutcome :=
  lineStepParts w h (splitWs line)

/-- Membership in the stroked border band of a rectangle of the given
thickness.  Models which pixels `cv2.rectangle` recolors; no claim depends on
the exact band, only on the draw being a deterministic pure function of the
rectangle that touches no other buffer. -/
def onBorder (x1 y1 x2 y2 : ℤ) (t : ℕ) (x y : ℤ) : Bool :=
  let xlo := min x1 x2
  let xhi := max x1 x2
  let ylo := min y1 y2
  let yhi := max y1 y2
  (decide (xlo ≤ x) && decide (x ≤ xhi) && decide (ylo ≤ y) && decide (y ≤ yhi)) &&
  (decide (x < xlo + t) || decide (xhi - t < x) ||
   decide (y < ylo + t) || decide (yhi - t < y))

/-- Model of the external primitive `cv2.rectangle(img, (x1,y1), (x2,y2),
color, t)`, as a pure function on the buffer value (the in-place mutation is
handled by the store model below).  Out-of-frame coordinates are legal and
simply recolor nothing outside the frame, as in OpenCV. -/
def cv2rectangle (img : Image) (r : Rect) (t : ℕ) : Image :=
  img.mapIdx (fun y row => row.mapIdx (fun x p =>
    if onBorder r.x1 r.y1 r.x2 r.y2 t (x : ℤ) (y : ℤ) then r.col else p))

/-- The `for line in f` loop of `draw_annotations` (app.py lines 90-116),
acting on the buffer value of the copy `img`. -/
def drawLoop (w h : ℕ) (img : Image) : List String → Image
  | [] => img
  | line :: rest =>
    match lineStep w h line with
    | .skip => drawLoop w h img rest
    | .box r => drawLoop w h (cv2rectangle img r 3) rest
    | .abort => img

/-- The function `draw_annotations(image, annotation_path)` of app.py
(lines 80-120).  The file argument is `none` when `os.path.exists` is false.
The returned buffer is the copy `img`; in the store model below the copy is a
fresh allocation. -/
def draw_annotations (image : Image) (file : Option (List String)) : Image :=
  let img := image
  let h := imgH img
  let w := imgW img
  match file with
  | none => img
  | some lines => drawLoop w h img lines

/-- The sequence of `cv2.rectangle` calls that the loop performs, in order:
one per line that reaches line 116, ending early at an aborting line. -/
def annotationRects (w h : ℕ) : List String → List Rect
  | [] => []
  | line :: rest =>
    match lineStep w h line with
    | .skip => annotationRects w h rest
    | .box r => r :: annotationRects w h rest
    | .abort => []

/-- Whether a line raises inside the loop (a coordinate token on which
`float()` fails, with at least 5 tokens present). -/
def lineAborts (w h : ℕ) (line : String) : Bool :=
  match lineStep w h line with
  | .abort => true
  | _ => false

/-- The rectangle contributed by a line, when it contributes one. -/
def lineBox (w h : ℕ) (line : String) : Option Rect :=
  match lineStep w h line with
  | .box r => some r
  | _ => none

/-- A store of image buffers: numpy arrays live on a heap and
`cv2.rectangle` mutates its argument in place, so the frame-effect claim is
stated against this explicit heap.  A buffer is addressed by its index. -/
abbrev Store := List Image

/-- In-place `cv2.rectangle` on the buffer at index `i` of the store. -/
def rectAt (s : Store) (i : ℕ) (r : Rect) : Store :=
  s.set i (cv2rectangle (s.getD i []) r 3)

/-- The parsing loop acting on the store, drawing on the buffer at `i`. -/
def drawLoopS (w h : ℕ) (s : Store) (i : ℕ) : List String → Store
  | [] => s
  | line :: rest =>
    match lineStep w h line with
    | .skip => drawLoopS w h s i rest
    | .box r => drawLoopS w h (rectAt s i r) i rest
    | .abort => s

/-- The function `draw_annotations` in the store model: `image.copy()` (app.py line 82)
allocates a fresh buffer at the end of the store, and all drawing targets
that fresh index.  Returns the updated store and the index of the result. -/
def drawAnnotationsS (s : Store) (src : ℕ) (file : Option (List String)) : Store × ℕ :=
  let img := s.getD src []
  let s1 := s ++ [img]
  let j := s.length
  let h := imgH img
  let w := imgW img
  match file with
  | none => (s1, j)
  | some lines => (drawLoopS w h s1 j lines, j)

/-- Model of `cv2.cvtColor(img, cv2.COLOR_BGR2RGB)`: swap the first and third channel
of every pixel (an involution used at app.py lines 196, 236, 241, 242). -/
def cvtColorSwap (img : Image) : Image :=
  img.map (fun row => row.map (fun p => (p.2.2, p.2.1, p.1)))

/-- Splitting a character list at every occurrence of `sep`, keeping empty
segments (the semantics of Python `str.split(sep)` with an argument). -/
def splitOnCharAux (sep : Char) (cur : List Char) : List Char → List (List Char)
  | [] => [cur.reverse]
  | c :: r =>
    if c = sep then cur.reverse :: splitOnCharAux sep [] r
    else splitOnCharAux sep (c :: cur) r

/-- Model of `os.path.basename` for POSIX paths: the part after the last slash. -/
def baseNameOf (p : String) : String := ⟨(splitOnCharAux '/' [] p.data).getLastD []⟩

/-- The first component of `os.path.splitext`: everything before the last
dot (the inputs here always carry a real `.jpg` extension). -/
def stemOf (s : String) : String :=
  let ps := splitOnCharAux '.' [] s.data
  if ps.length ≤ 1 then s else ⟨List.intercalate ['.'] ps.dropLast⟩

/-- The ground-truth label path computed for a selected sample
(app.py lines 199-200): `annotations/<stem of basename>.txt`. -/
def annPathOf (samplePath : String) : String :=
  "annotations/" ++ stemOf (baseNameOf samplePath) ++ ".txt"

/-- What one run of `main()` renders for the claims in scope: the gallery
grid, the image-load error message, or the Detail pair of displayed images
(original, and the overlay titled Detected Defects). -/
inductive Render where
  | galleryGrid : Render
  | errorLoading (path : String) : Render
  | detailPair (original detected : Image) : Render
deriving DecidableEq, Repr

/-- The per-session `st.session_state`: the currently selected sample path
(`none` is the Gallery state). -/
structure Session where
  selected : Option String
deriving DecidableEq, Repr

/-- The displayed ground-truth overlay pipeline of the Detail view: convert
the loaded buffer BGR to RGB, draw the sample's ground-truth label file onto
a copy, and convert again for display (app.py lines 196, 203, 242). -/
def groundTruthOverlay (raw : Image) (ann : Option (List String)) : Image :=
  cvtColorSwap (draw_annotations (cvtColorSwap raw) ann)

/-- One run of the body of `main()` after setup (app.py lines 178-258 for
the Detail branch, 259-366 for the Gallery branch), with the filesystem
abstracted as two oracles: `imread` (cv2.imread, `none` for a failed load)
and `annFS` (annotation files by path).  The Detail branch shows an error
and returns early when the image fails to load (lines 191-194); note that it
leaves `selected` untouched in that case. -/
def mainStep (imread : String → Option Image) (annFS : String → Option (List String))
    (st : Session) : Render × Session :=
  match st.selected with
  | none => (.galleryGrid, st)
  | some path =>
    match imread path with
    | none => (.errorLoading path, st)
    | some raw =>
      let img := cvtColorSwap raw
      let annotated := draw_annotations img (annFS (annPathOf path))
      (.detailPair (cvtColorSwap img) (cvtColorSwap annotated), st)

/-- One synthetic or real detection record.  Modelled from the spec (§3, §4.4):
no detector exists anywhere in src/, so the record layout follows the spec's
`Detection` (pixel box, confidence in [0,1], class label). -/
structure Detection where
  x1 : ℤ
  y1 : ℤ
  x2 : ℤ
  y2 : ℤ
  conf : ℚ
  label : String
deriving DecidableEq, Repr

/-- Origin flag of a detection batch.  Modelled from the spec (§3). -/
inductive Provenance where
  | real : Provenance
  | fallback : Provenance
deriving DecidableEq, Repr

/-- Modelled from the spec (§4.4, §8): the deterministic placeholder
detections synthesized from image width/height alone when the backend fails —
two boxes at fixed fractional offsets/sizes with fixed confidences
0.87 and 0.92 and fixed labels. -/
def fallbackDetections (w h : ℕ) : List Detection :=
  [⟨truncQ ((w : ℚ) / 4), truncQ ((h : ℚ) / 4),
    truncQ ((w : ℚ) / 2), truncQ ((h : ℚ) / 2), 87 / 100, "Defect Type 1"⟩,
   ⟨truncQ ((w : ℚ) / 2), truncQ ((h : ℚ) / 2),
    truncQ (3 * (w : ℚ) / 4), truncQ (3 * (h : ℚ) / 4), 92 / 100, "Defect Type 2"⟩]

/-- Modelled from the spec (§4.4): `DetectionAdapter.Detect`.  The external
backend is an oracle returning its raw detections or failing (`none`).  Both
branches apply the same local threshold filter afterward, and the provenance
flag is part of the returned value. -/
def Detect (backend : Image → Option (List Detection)) (image : Image)
    (threshold : ℚ) : List Detection × Provenance :=
  match backend image with
  | some ds => (ds.filter (fun d => decide (threshold ≤ d.conf)), .real)
  | none =>
    ((fallbackDetections (imgW image) (imgH image)).filter
      (fun d => decide (threshold ≤ d.conf)), .fallback)

/-- Destination side of the corpus after setup: the files (name, content) of
`sample_images/` and of the labels directory. -/
structure DestState where
  sampleImages : List (String × String)
  labelFiles : List (String × String)
deriving DecidableEq, Repr

/-- The function `setup_sample_data` (app.py lines 15-55): clear both destination
directories (the two removal loops at lines 29-39, which is why the result
ignores `dst`), take the first 10 source `*.jpg` files in sorted order, copy
them under sequential names `sample_i.jpg`, and copy the matching
`<stem>.txt` label when it exists.  I/O oracles: `srcImageData` gives a
source image's bytes, `srcLabels` the label file contents by name.  Copy and
removal are modelled as succeeding; an individual failure is only logged in
the source. -/
def setup_sample_data (srcImageNames : List String) (srcImageData : String → String)
    (srcLabels : String → Option String) (_dst : DestState) : DestState :=
  let image_files :=
    (List.mergeSort (srcImageNames.filter (fun n => n.endsWith ".jpg"))
      (fun a b => decide (a ≤ b))).take 10
  { sampleImages := image_files.enum.map
      (fun ip => ("sample_" ++ toString (ip.1 + 1) ++ ".jpg", srcImageData ip.2)),
    labelFiles := image_files.enum.filterMap
      (fun ip =>
        match srcLabels (stemOf (baseNameOf ip.2) ++ ".txt") with
        | some c => some ("sample_" ++ toString (ip.1 + 1) ++ ".txt", c)
        | none => none) }

/-- The well-formedness predicate exactly as §8 of the spec words it: at
least 5 whitespace-separated tokens whose LAST four parse as numbers.  Kept
separate from `lineStep`, which follows the code, so the two can be
compared. -/
def specWellFormed (line : String) : Bool :=
  let parts := splitWs line
  decide (parts.length ≥ 5) &&
    (parts.drop (parts.length - 4)).all (fun t => (pyFloat t).isSome)

/-! ### Helper lemmas -/

theorem getD_append_len {α : Type} (s : List α) (a d : α) :
    (s ++ [a]).getD s.length d = a := by
  induction s with
  | nil => rfl
  | cons x xs ih => simp [ih]

theorem set_append_len {α : Type} (s : List α) (a b : α) :
    (s ++ [a]).set s.length b = s ++ [b] := by
  induction s with
  | nil => rfl
  | cons x xs ih => simp [ih]

theorem getD_append_lt {α : Type} (s t : List α) (i : ℕ) (d : α)
    (h : i < s.length) : (s ++ t).getD i d = s.getD i d := by
  induction s generalizing i with
  | nil => simp at h
  | cons x xs ih =>
    cases i with
    | zero => rfl
    | succ n => simpa using ih n (by simpa using h)

/-- The value-level loop is the fold of the rectangle trace. -/
theorem drawLoop_eq_foldl (w h : ℕ) (img : Image) (lines : List String) :
    drawLoop w h img lines
      = (annotationRects w h lines).foldl (fun im r => cv2rectangle im r 3) img := by
  induction lines generalizing img with
  | nil => rfl
  | cons line rest ih =>
    cases hstep : lineStep w h line with
    | skip => simp [drawLoop, annotationRects, hstep, ih]
    | box r => simp [drawLoop, annotationRects, hstep, ih]
    | abort => simp [drawLoop, annotationRects, hstep]

/-- Processing a file is processing its longest abort-free prefix. -/
theorem drawLoop_takeWhile (w h : ℕ) (img : Image) (lines : List String) :
    drawLoop w h img lines
      = drawLoop w h img (lines.takeWhile (fun l => !(lineAborts w h l))) := by
  induction lines generalizing img with
  | nil => rfl
  | cons line rest ih =>
    cases hstep : lineStep w h line with
    | skip => simp [drawLoop, List.takeWhile_cons, lineAborts, hstep, ih]
    | box r => simp [drawLoop, List.takeWhile_cons, lineAborts, hstep, ih]
    | abort => simp [drawLoop, List.takeWhile_cons, lineAborts, hstep]

/-- The store-level loop drawing on a freshly appended buffer only rewrites
that buffer. -/
theorem drawLoopS_append (w h : ℕ) (s : Store) (img : Image) (lines : List String) :
    drawLoopS w h (s ++ [img]) s.length lines = s ++ [drawLoop w h img lines] := by
  induction lines generalizing img with
  | nil => rfl
  | cons line rest ih =>
    cases hstep : lineStep w h line with
    | skip => simp [drawLoopS, drawLoop, hstep, ih]
    | box r =>
      have hrect : rectAt (s ++ [img]) s.length r = s ++ [cv2rectangle img r 3] := by
        simp [rectAt, getD_append_len, set_append_len]
      simp [drawLoopS, drawLoop, hstep, hrect, ih]
    | abort => simp [drawLoopS, drawLoop, hstep]

/-- The store after a call is the old store plus the freshly drawn copy. -/
theorem drawAnnotationsS_spec (s : Store) (i : ℕ) (file : Option (List String)) :
    drawAnnotationsS s i file
      = (s ++ [draw_annotations (s.getD i []) file], s.length) := by
  cases file with
  | none => rfl
  | some lines => simp [drawAnnotationsS, draw_annotations, drawLoopS_append]

/-- Filtering by a predicate leaves only elements satisfying it. -/
theorem all_filter_self {α : Type} (p : α → Bool) (l : List α) :
    (l.filter p).all p = true := by
  rw [List.all_eq_true]
  intro a ha
  exact (List.mem_filter.mp ha).2

/-! ### Claim theorems -/

/-- C1, counterexample.  The claim predicts: a line is well-formed iff it has
at least 5 tokens whose last four parse as numbers, every other line is
skipped locally, and `draw_annotations` yields exactly one box per
well-formed line.  On the file `["0 x 0 0 0", "0 0.5 0.5 1 1"]` the first
line is malformed and the second is well-formed, so the claim predicts one
box; the code raises at `float("x")`, the exception is caught outside the
loop, and zero boxes are produced — the second line is never processed and
the 1x1 image comes back untouched. -/
theorem c1_per_line_cx :
    annotationRects 1 1 ["0 x 0 0 0", "0 0.5 0.5 1 1"] = [] ∧
    List.filter (fun l => specWellFormed l) ["0 x 0 0 0", "0 0.5 0.5 1 1"]
      = ["0 0.5 0.5 1 1"] ∧
    draw_annotations [[(9, 9, 9)]] (some ["0 x 0 0 0", "0 0.5 0.5 1 1"])
      = [[(9, 9, 9)]] := by
  refine ⟨by decide, by decide, by decide⟩

/-- C1, amended.  `draw_annotations` performs exactly one `cv2.rectangle`
call per line whose first five tokens exist and whose 2nd-5th tokens parse
as floats, in file order — but only within the longest prefix of the file
free of aborting lines: a line with at least 5 tokens among which a
coordinate token fails to parse stops processing, and it and every later
line contribute zero boxes (with no error propagated).  Lines with fewer
than 5 tokens are skipped locally. -/
theorem c1_per_line (w h : ℕ) (lines : List String) :
    annotationRects w h lines
      = (lines.takeWhile (fun l => !(lineAborts w h l))).filterMap (lineBox w h) := by
  induction lines with
  | nil => rfl
  | cons line rest ih =>
    cases hstep : lineStep w h line with
    | skip =>
      simp [annotationRects, List.takeWhile_cons, lineAborts, lineBox, hstep, ih]
    | box r =>
      simp [annotationRects, List.takeWhile_cons, lineAborts, lineBox, hstep, ih]
    | abort =>
      simp [annotationRects, List.takeWhile_cons, lineAborts, hstep]

/-- C5.  A missing annotation file (the `os.path.exists` guard, app.py lines
85-86) yields the unmodified copy of the input image, with no error: at the
value level the output equals the input, and at the store level the call
only appends the untouched copy. -/
theorem c5_missing_file (image : Image) (s : Store) (i : ℕ) :
    draw_annotations image none = image ∧
    drawAnnotationsS s i none = (s ++ [s.getD i []], s.length) :=
  ⟨rfl, rfl⟩

/-- C9.  Corpus setup is idempotent: its destination contents are a function
of the source listing and contents alone (both destination directories are
cleared first, app.py lines 29-39), so a second run on the same unchanged
sources reproduces the identical corpus listing. -/
theorem c9_setup_idempotent (srcImageNames : List String)
    (srcImageData : String → String) (srcLabels : String → Option String)
    (dst : DestState) :
    setup_sample_data srcImageNames srcImageData srcLabels
        (setup_sample_data srcImageNames srcImageData srcLabels dst)
      = setup_sample_data srcImageNames srcImageData srcLabels dst := rfl

/-- C10.  `draw_annotations` is total: it always returns a buffer, equal to
the input copy with exactly the rectangles of the abort-free prefix of the
file drawn on it, in order; a parse exception raised mid-file is caught by
the `except` around the loop and only drops the aborting line and all later
lines.  (I/O is modelled as the already-read line list; the `except` clause
is indifferent to which statement inside the loop raised.) -/
theorem c10_partial_overlay (image : Image) (lines : List String) :
    draw_annotations image (some lines)
      = (annotationRects (imgW image) (imgH image) lines).foldl
          (fun im r => cv2rectangle im r 3) image ∧
    draw_annotations image (some lines)
      = draw_annotations image
          (some (lines.takeWhile (fun l => !(lineAborts (imgW image) (imgH image) l)))) := by
  constructor
  · simpa [draw_annotations] using
      drawLoop_eq_foldl (imgW image) (imgH image) image lines
  · simpa [draw_annotations] using
      drawLoop_takeWhile (imgW image) (imgH image) image lines

/-- C2 (spec-modelled: no detector exists under src/, `Detect` and the
fallback generator follow §4.4 of the spec).  In both the real-backend and
the fallback branch every returned detection satisfies
`confidence >= confidenceThreshold`, and the provenance flag in the returned
pair tells the caller which branch produced the batch. -/
theorem c2_threshold_filter (backend : Image → Option (List Detection))
    (image : Image) (threshold : ℚ) :
    ((Detect backend image threshold).1).all
        (fun d => decide (threshold ≤ d.conf)) = true ∧
    ((Detect backend image threshold).2 = .real ↔ (backend image).isSome = true) := by
  cases hb : backend image with
  | none => simp [Detect, hb, all_filter_self]
  | some ds => simp [Detect, hb, all_filter_self]

/-- C3.  In the Detail view, the image shown under the Detected Defects
heading is exactly the ground-truth overlay: `draw_annotations` applied to
the image and to the sample's own label file path, wrapped in the two color
conversions of the display pipeline.  `mainStep` takes no detector and no
confidence threshold — no detection or filtering is involved — so the
detection panel is byte-identical to the ground-truth overlay of the same
sample. -/
theorem c3_detected_is_ground_truth (imread : String → Option Image)
    (annFS : String → Option (List String)) (path : String) (raw : Image)
    (hload : imread path = some raw) :
    (mainStep imread annFS ⟨some path⟩).1
      = .detailPair (cvtColorSwap (cvtColorSwap raw))
          (groundTruthOverlay raw (annFS (annPathOf path))) := by
  simp [mainStep, hload, groundTruthOverlay]

/-- Witness for C3 at a concrete sample. -/
theorem c3_detected_is_ground_truth_witness :
    (fun _ : String => some [[(1, 2, 3)]]) "sample_images/sample_1.jpg"
        = some [[(1, 2, 3)]] ∧
    (mainStep (fun _ => some [[(1, 2, 3)]]) (fun _ => some ["0 0.5 0.5 1 1"])
        ⟨some "sample_images/sample_1.jpg"⟩).1
      = .detailPair (cvtColorSwap (cvtColorSwap [[(1, 2, 3)]]))
          (groundTruthOverlay [[(1, 2, 3)]] (some ["0 0.5 0.5 1 1"])) :=
  ⟨rfl, c3_detected_is_ground_truth (fun _ => some [[(1, 2, 3)]])
    (fun _ => some ["0 0.5 0.5 1 1"]) "sample_images/sample_1.jpg" [[(1, 2, 3)]] rfl⟩

/-- C4.  For a well-formed line the pixel box is obtained by denormalizing
against the image width and height and truncating toward zero:
`x1 = trunc((x_center - w/2)*W)`, `x2 = trunc((x_center + w/2)*W)` and
analogously for y (the code computes `trunc(x_center*W - (w*W)/2)`, equal
over the exact rationals).  No clamping to the image bounds appears in the
formula. -/
theorem c4_box_formula (w h : ℕ) (cid a b c d : String) (ignored : List String)
    (xc yc bw bh : ℚ)
    (h1 : pyFloat a = some xc) (h2 : pyFloat b = some yc)
    (h3 : pyFloat c = some bw) (h4 : pyFloat d = some bh) :
    lineStepParts w h (cid :: a :: b :: c :: d :: ignored)
      = .box ⟨truncQ ((xc - bw / 2) * w), truncQ ((yc - bh / 2) * h),
              truncQ ((xc + bw / 2) * w), truncQ ((yc + bh / 2) * h),
              classColor cid⟩ := by
  have e1 : xc * (w : ℚ) - bw * (w : ℚ) / 2 = (xc - bw / 2) * (w : ℚ) := by ring
  have e2 : yc * (h : ℚ) - bh * (h : ℚ) / 2 = (yc - bh / 2) * (h : ℚ) := by ring
  have e3 : xc * (w : ℚ) + bw * (w : ℚ) / 2 = (xc + bw / 2) * (w : ℚ) := by ring
  have e4 : yc * (h : ℚ) + bh * (h : ℚ) / 2 = (yc + bh / 2) * (h : ℚ) := by ring
  simp [lineStepParts, h1, h2, h3, h4, e1, e2, e3, e4]

/-- Witness for C4: the spec's own example — a 640x480 image and the line
`"0 0.5 0.5 0.25 0.25"` yield the box (240,180)-(400,300). -/
theorem c4_box_formula_witness :
    pyFloat "0.5" = some (1 / 2) ∧ pyFloat "0.25" = some (1 / 4) ∧
    lineStepParts 640 480 ["0", "0.5", "0.5", "0.25", "0.25"]
      = .box ⟨240, 180, 400, 300, (255, 0, 0)⟩ :=
  ⟨by decide, by decide, by
    rw [c4_box_formula 640 480 "0" "0.5" "0.5" "0.25" "0.25" []
      (1 / 2) (1 / 2) (1 / 4) (1 / 4) (by decide) (by decide) (by decide) (by decide)]
    decide⟩

/-- C6.  `draw_annotations` never mutates its input buffer: in the store
model, where `cv2.rectangle` writes in place, every rectangle is drawn on
the fresh copy allocated by `image.copy()` (app.py line 82), so the input
buffer compares byte-for-byte equal before and after the call, for every
input image, annotation file and for the fixed style mapping. -/
theorem c6_input_not_mutated (s : Store) (i : ℕ)
    (file : Option (List String)) (hi : i < s.length) :
    ((drawAnnotationsS s i file).1).getD i [] = s.getD i [] := by
  rw [drawAnnotationsS_spec]
  exact getD_append_lt s _ i [] hi

/-- Witness for C6 on a concrete one-buffer store and a file that recolors
the whole copy. -/
theorem c6_input_not_mutated_witness :
    0 < ([[[(9, 9, 9)]]] : Store).length ∧
    ((drawAnnotationsS [[[(9, 9, 9)]]] 0 (some ["0 0.5 0.5 1 1"])).1).getD 0 []
      = ([[[(9, 9, 9)]]] : Store).getD 0 [] :=
  ⟨by decide, c6_input_not_mutated [[[(9, 9, 9)]]] 0 (some ["0 0.5 0.5 1 1"]) (by decide)⟩

/-- C7.  For a `class_id` token that is an integer missing from
`DEFECT_COLORS`, or that does not parse as an integer at all, the style
lookup resolves to the default green (0,255,0) (app.py lines 108-113), the
rectangle for the line is still drawn, and no error escapes: the line still
produces a `box` outcome, so later lines are unaffected. -/
theorem c7_unknown_class_green (tok : String)
    (hun : pyInt tok = none ∨ ∀ cid, pyInt tok = some cid → DEFECT_COLORS cid = none)
    (w h : ℕ) (a b c d : String) (ignored : List String) (xc yc bw bh : ℚ)
    (h1 : pyFloat a = some xc) (h2 : pyFloat b = some yc)
    (h3 : pyFloat c = some bw) (h4 : pyFloat d = some bh) :
    classColor tok = (0, 255, 0) ∧
    lineStepParts w h (tok :: a :: b :: c :: d :: ignored)
      = .box ⟨truncQ (xc * w - bw * w / 2), truncQ (yc * h - bh * h / 2),
              truncQ (xc * w + bw * w / 2), truncQ (yc * h + bh * h / 2),
              (0, 255, 0)⟩ := by
  have hcol : classColor tok = (0, 255, 0) := by
    cases hpi : pyInt tok with
    | none => simp [classColor, hpi]
    | some cid =>
      cases hun with
      | inl hnone => rw [hpi] at hnone; exact absurd hnone (by simp)
      | inr hmiss => simp [classColor, hpi, hmiss cid hpi]
  exact ⟨hcol, by simp [lineStepParts, h1, h2, h3, h4, hcol]⟩

/-- Witness for C7: the token "1.5" does not parse as an integer, yet the
line still yields a green box. -/
theorem c7_unknown_class_green_witness :
    pyInt "1.5" = none ∧
    classColor "1.5" = (0, 255, 0) ∧
    lineStepParts 640 480 ["1.5", "0.5", "0.5", "0.25", "0.25"]
      = .box ⟨240, 180, 400, 300, (0, 255, 0)⟩ :=
  ⟨by decide, (c7_unknown_class_green "1.5" (Or.inl (by decide)) 640 480
      "0.5" "0.5" "0.25" "0.25" [] (1 / 2) (1 / 2) (1 / 4) (1 / 4)
      (by decide) (by decide) (by decide) (by decide)).1, by
    rw [(c7_unknown_class_green "1.5" (Or.inl (by decide)) 640 480
      "0.5" "0.5" "0.25" "0.25" [] (1 / 2) (1 / 2) (1 / 4) (1 / 4)
      (by decide) (by decide) (by decide) (by decide)).2]
    decide⟩

/-- C8, counterexample.  The claim predicts that a failed image load makes
the session fall back to the Gallery state.  In the code (app.py lines
191-194) the Detail branch shows an error and returns early, but
`st.session_state.selected_sample` is never cleared: the session stays in
Detail.  Concretely, with every load failing, the rendered result is the
explicit error, yet the resulting session still has the sample selected. -/
theorem c8_not_found_cx :
    (mainStep (fun _ => none) (fun _ => none)
        ⟨some "sample_images/sample_1.jpg"⟩).1
      = .errorLoading "sample_images/sample_1.jpg" ∧
    ((mainStep (fun _ => none) (fun _ => none)
        ⟨some "sample_images/sample_1.jpg"⟩).2).selected ≠ none := by
  refine ⟨by decide, by decide⟩

/-- C8, amended.  When the selected sample's image cannot be loaded, the
failure is surfaced to the caller as an explicit error render and the view
returns early without crashing — but the session state is left unchanged
(the selected sample is kept, so the session remains in Detail rather than
falling back to Gallery). -/
theorem c8_load_failure_keeps_state (imread : String → Option Image)
    (annFS : String → Option (List String)) (st : Session) (path : String)
    (hsel : st.selected = some path) (hload : imread path = none) :
    mainStep imread annFS st = (.errorLoading path, st) := by
  obtain ⟨sel⟩ := st
  simp only [Session.selected] at hsel
  subst hsel
  simp [mainStep, hload]

/-- Witness for C8 (amended) at a concrete failing load. -/
theorem c8_load_failure_keeps_state_witness :
    (Session.mk (some "sample_images/sample_2.jpg")).selected
        = some "sample_images/sample_2.jpg" ∧
    (fun _ : String => (none : Option Image)) "sample_images/sample_2.jpg" = none ∧
    mainStep (fun _ => none) (fun _ => none) ⟨some "sample_images/sample_2.jpg"⟩
      = (.errorLoading "sample_images/sample_2.jpg",
         ⟨some "sample_images/sample_2.jpg"⟩) :=
  ⟨rfl, rfl, c8_load_failure_keeps_state (fun _ => none) (fun _ => none)
    ⟨some "sample_images/sample_2.jpg"⟩ "sample_images/sample_2.jpg" rfl rfl⟩
